import Mathlib

/-!
Verification of the vocals-sdk-python repository against its natural-language
specification.  The configuration module (src/vocals_sdk/config.py) is embedded
directly; the client runtime (the VocalsClient class exercised by src/test.py
but not present under src/) is modelled from the spec where a claim needs it.
-/

namespace VocalsSDK

deriving instance DecidableEq for Except

/-- A process environment, as consulted by os.environ: a finite map from
variable names to string values, embedded as an association list. -/
def Env : Type := List (String × String)

/-- os.environ.get(key) — the first binding of key, if any. -/
def envGet (env : Env) (key : String) : Option String :=
  (env.find? (fun p => p.1 == key)).map (fun p => p.2)

/-- os.environ.get(key, default) — lookup with a default. -/
def envGetD (env : Env) (key : String) (d : String) : String :=
  (envGet env key).getD d

/-- Python str.lower(), modelled for ASCII letters (the only characters the
config code compares after lowering). -/
def pyLower (s : String) : String :=
  String.mk (s.data.map Char.toLower)

/-- Errors raised by the Python constructs the config module uses:
int()/float() raise ValueError on an unparsable string; attribute assignment
on a frozen dataclass raises FrozenInstanceError. -/
inductive PyError where
  | valueError
  | frozenInstanceError
deriving Repr, DecidableEq

/-- Leading- and trailing-whitespace stripping performed by Python int() and
float() before parsing. -/
def stripWS (cs : List Char) : List Char :=
  ((cs.dropWhile Char.isWhitespace).reverse.dropWhile Char.isWhitespace).reverse

/-- Numeric value of a decimal digit character. -/
def digitVal (c : Char) : Nat := c.toNat - 48

/-- Consume a run of decimal digits, allowing a single underscore between two
digits (PEP 515), returning the accumulated value, the number of digits
consumed, and the unconsumed remainder.  `v` and `k` are the accumulators. -/
def takeDigits : List Char → Nat → Nat → Nat × Nat × List Char
  | '_' :: c :: rest, v, k =>
      if k ≠ 0 ∧ c.isDigit then takeDigits rest (v * 10 + digitVal c) (k + 1)
      else (v, k, '_' :: c :: rest)
  | c :: rest, v, k =>
      if c.isDigit then takeDigits rest (v * 10 + digitVal c) (k + 1)
      else (v, k, c :: rest)
  | [], v, k => (v, k, [])

/-- An optional leading sign, returned as ±1 together with the remainder. -/
def pySign : List Char → Int × List Char
  | '+' :: rest => (1, rest)
  | '-' :: rest => (-1, rest)
  | cs => (1, cs)

/-- Python int(s) on a decimal string: optional surrounding whitespace,
optional sign, then a nonempty digit run (single underscores between digits
allowed); anything else raises ValueError, modelled as none. -/
def pyInt (s : String) : Option Int :=
  let (sg, cs) := pySign (stripWS s.data)
  let (v, k, rest) := takeDigits cs 0 0
  if k = 0 ∨ rest ≠ [] then none else some (sg * (v : Int))

/-- Exponent digits of a float literal: a nonempty digit run that must consume
the whole remainder; scales the mantissa by 10^(sign·e). -/
def expVal (mant : ℚ) (sg : Int) (cs : List Char) : Option ℚ :=
  let (e, k, rest) := takeDigits cs 0 0
  if k = 0 ∨ rest ≠ [] then none
  else some (mant * (10 : ℚ) ^ (sg * (e : Int)))

/-- The optional exponent part of a float literal: e or E, optional sign,
digits.  An empty remainder yields the mantissa itself. -/
def expPart (mant : ℚ) : List Char → Option ℚ
  | [] => some mant
  | 'e' :: rest => let (sg, cs) := pySign rest; expVal mant sg cs
  | 'E' :: rest => let (sg, cs) := pySign rest; expVal mant sg cs
  | _ => none

/-- The unsigned body of a Python float literal: digits [. digits] [exp] with
at least one digit in the integer or fraction part.  (The special strings
inf/infinity/nan, which the config module never receives from its defaults,
are outside this model.) -/
def pyFloatCore (cs : List Char) : Option ℚ :=
  let (ip, ik, rest) := takeDigits cs 0 0
  match rest with
  | '.' :: rest2 =>
      let (fp, fk, rest3) := takeDigits rest2 0 0
      if ik + fk = 0 then none
      else expPart ((ip : ℚ) + (fp : ℚ) / (10 : ℚ) ^ fk) rest3
  | r => if ik = 0 then none else expPart (ip : ℚ) r

/-- Python float(s) on a finite decimal literal: optional whitespace, optional
sign, then the literal body; anything else raises ValueError (none).  The
value is modelled as the exact rational the literal denotes. -/
def pyFloat (s : String) : Option ℚ :=
  let (sg, cs) := pySign (stripWS s.data)
  (pyFloatCore cs).map (fun q => (sg : ℚ) * q)

/-- Python `x or default` on an optional string: falls through to the default
when x is None or the empty string (both falsy). -/
def pyOrStr (x : Option String) (d : String) : String :=
  match x with
  | some s => if s = "" then d else s
  | none => d

/-- The hard-coded fallback WebSocket endpoint of config.py. -/
def defaultWsEndpoint : String := "ws://192.168.1.46:8000/v1/stream/conversation"

/-- The VocalsConfig dataclass of src/vocals_sdk/config.py: one field per
declared dataclass field, with Python float fields modelled as exact
rationals and Dict[str, str] as an association list. -/
structure VocalsConfig where
  token_endpoint : Option String
  headers : Option (List (String × String))
  auto_connect : Bool
  max_reconnect_attempts : Int
  reconnect_delay : ℚ
  token_refresh_buffer : ℚ
  ws_endpoint : Option String
  use_token_auth : Bool
deriving Repr, DecidableEq

/-- The dataclass field defaults of VocalsConfig (the values used when the
constructor is called with no arguments, before __post_init__ runs). -/
def VocalsConfig.defaults : VocalsConfig :=
  { token_endpoint := none
    headers := none
    auto_connect := true
    max_reconnect_attempts := 3
    reconnect_delay := 1
    token_refresh_buffer := 60
    ws_endpoint := none
    use_token_auth := true }

/-- VocalsConfig.__post_init__: fills token_endpoint and headers when None,
and resolves ws_endpoint from VOCALS_WS_ENDPOINT with a falsy-or fallback
(`os.environ.get(...) or default`, so an empty string also falls back). -/
def VocalsConfig.postInit (env : Env) (c : VocalsConfig) : VocalsConfig :=
  let c1 := if c.token_endpoint = none
    then { c with token_endpoint := some "/api/wstoken" } else c
  let c2 := if c1.headers = none
    then { c1 with headers := some [] } else c1
  if c2.ws_endpoint = none
  then { c2 with ws_endpoint := some (pyOrStr (envGet env "VOCALS_WS_ENDPOINT") defaultWsEndpoint) }
  else c2

/-- The bare constructor call VocalsConfig(): dataclass defaults followed by
__post_init__ (this is also how config.py builds DEFAULT_CONFIG). -/
def VocalsConfig.bare (env : Env) : VocalsConfig :=
  VocalsConfig.postInit env VocalsConfig.defaults

/-- get_default_config() of src/vocals_sdk/config.py: every field resolved
from the environment with the module's defaults; int()/float() on the three
numeric variables raise ValueError on unparsable input (arguments are
evaluated left to right, so the int conversion raises first).  Construction
finishes with __post_init__, as for every dataclass instance. -/
def get_default_config (env : Env) : Except PyError VocalsConfig :=
  match pyInt (envGetD env "VOCALS_MAX_RECONNECT_ATTEMPTS" "3") with
  | none => Except.error PyError.valueError
  | some mra =>
    match pyFloat (envGetD env "VOCALS_RECONNECT_DELAY" "1.0") with
    | none => Except.error PyError.valueError
    | some rd =>
      match pyFloat (envGetD env "VOCALS_TOKEN_REFRESH_BUFFER" "60.0") with
      | none => Except.error PyError.valueError
      | some trb =>
        Except.ok (VocalsConfig.postInit env
          { token_endpoint := some (envGetD env "VOCALS_TOKEN_ENDPOINT" "/api/wstoken")
            headers := none
            auto_connect :=
              pyLower (envGetD env "VOCALS_AUTO_CONNECT" "true") == "true"
            max_reconnect_attempts := mra
            reconnect_delay := rd
            token_refresh_buffer := trb
            ws_endpoint := some (envGetD env "VOCALS_WS_ENDPOINT" defaultWsEndpoint)
            use_token_auth :=
              pyLower (envGetD env "VOCALS_USE_TOKEN_AUTH" "true") == "true" })

/-- VocalsConfig is declared with a plain @dataclass decorator: frozen is not
set, so Python attribute assignment on an instance is permitted. -/
def VocalsConfig.isFrozen : Bool := false

/-- Python attribute assignment `cfg.auto_connect = v` on a VocalsConfig
instance: raises FrozenInstanceError when the dataclass is frozen, otherwise
updates the field in place (src/test.py line 91 performs exactly such a
post-construction assignment, on the attribute debug_level). -/
def VocalsConfig.setAutoConnect (c : VocalsConfig) (v : Bool) :
    Except PyError VocalsConfig :=
  if VocalsConfig.isFrozen then Except.error PyError.frozenInstanceError
  else Except.ok { c with auto_connect := v }

/-- Whether an Except value is a success (a Python call that returned rather
than raised). -/
def exceptOk {ε α : Type} : Except ε α → Bool
  | Except.ok _ => true
  | Except.error _ => false

/-- Modelled from the spec: the ConnectionState enum of the VocalsClient
runtime (the vocals package is not under src/; only src/test.py exercises
it).  "enum \x7bdisconnected, connecting, connected, reconnecting, error\x7d". -/
inductive ConnectionState where
  | disconnected
  | connecting
  | connected
  | reconnecting
  | error
deriving Repr, DecidableEq

/-- Modelled from the spec: the RecordingState enum of the Audio Capture
Pipeline, "enum \x7bidle, recording, stopping\x7d". -/
inductive RecordingState where
  | idle
  | recording
  | stopping
deriving Repr, DecidableEq

/-- Modelled from the spec: the PlaybackState enum of the Audio Playback
Pipeline, "enum \x7bidle, playing, paused\x7d". -/
inductive PlaybackState where
  | idle
  | playing
  | paused
deriving Repr, DecidableEq

/-- The TTSAudioSegment record, with the fields src/test.py constructs
(text, audio_data, sample_rate, segment_id, sentence_number,
generation_time_ms, format, duration_seconds); per the spec an immutable
record, so a plain structure. -/
structure TTSAudioSegment where
  text : String
  audio_data : String
  sample_rate : Nat
  segment_id : String
  sentence_number : Nat
  generation_time_ms : Nat
  format : String
  duration_seconds : ℚ
deriving Repr, DecidableEq

/-- The StateError of the spec's error taxonomy, raised synchronously for an
operation invoked in an invalid state. -/
inductive SdkError where
  | stateError
deriving Repr, DecidableEq

/-- Modelled from the spec: the observable state of a VocalsClient (the
class itself is not under src/).  audio_queue is the FIFO AudioQueue;
processed records every segment ever handed to a processor, in hand-over
order; connection_events is the trace of connection-state events emitted. -/
structure ClientState where
  connection_state : ConnectionState
  recording_state : RecordingState
  playback_state : PlaybackState
  audio_queue : List TTSAudioSegment
  processed : List TTSAudioSegment
  connection_events : List ConnectionState
deriving Repr, DecidableEq

/-- A freshly constructed, never-connected client: disconnected, idle, empty
queue (the initial state src/test.py observes after VocalsClient()). -/
def ClientState.init : ClientState :=
  { connection_state := ConnectionState.disconnected
    recording_state := RecordingState.idle
    playback_state := PlaybackState.idle
    audio_queue := []
    processed := []
    connection_events := [] }

/-- Modelled from the spec: add_to_queue(segment) "appends; always
succeeds" — FIFO by arrival. -/
def add_to_queue (c : ClientState) (s : TTSAudioSegment) : ClientState :=
  { c with audio_queue := c.audio_queue ++ [s] }

/-- Modelled from the spec: the drain loop of process_audio_queue on the
queue contents.  Returns (handed, remaining, count): the segments handed to
the caller-supplied processor in hand-over order, the segments left in the
queue in order, and the count processed.  consume_all false takes at most
one segment from the front; consume_all true drains everything. -/
def processQueueList : List TTSAudioSegment → Bool → List TTSAudioSegment × List TTSAudioSegment × Nat
  | [], _ => ([], [], 0)
  | s :: rest, false => ([s], rest, 1)
  | s :: rest, true =>
      let (handed, remaining, n) := processQueueList rest true
      (s :: handed, remaining, n + 1)

/-- Modelled from the spec: process_audio_queue(processor, consume_all)
"removes and hands segments to a caller-supplied function in arrival order:
if consume_all is false, exactly one segment is processed per call (or zero
if empty); if true, the queue is drained entirely in one call.  Returns the
count processed."  The hand-overs are recorded in the processed trace. -/
def process_audio_queue (c : ClientState) (consume_all : Bool) : ClientState × Nat :=
  let (handed, remaining, n) := processQueueList c.audio_queue consume_all
  ({ c with audio_queue := remaining, processed := c.processed ++ handed }, n)

/-- Modelled from the spec: clear_queue() "discards all pending segments
without processing them" — the processed trace is untouched. -/
def clear_queue (c : ClientState) : ClientState :=
  { c with audio_queue := [] }

/-- Modelled from the spec: start_recording() "requires ConnectionState ==
connected; otherwise fails with a declared error [StateError, raised
synchronously to the caller] without changing RecordingState"; on success
it transitions idle → recording. -/
def start_recording (c : ClientState) : ClientState × Option SdkError :=
  if c.connection_state = ConnectionState.connected
  then ({ c with recording_state := RecordingState.recording }, none)
  else (c, some SdkError.stateError)

/-- Modelled from the spec: disconnect() "closes the transport
deterministically and transitions to disconnected regardless of prior state
(idempotent)".  A connection-state event is emitted only on an actual
transition, so the second of two consecutive calls emits zero events
(within the "at most one / clearly documented zero" allowance). -/
def disconnect (c : ClientState) : ClientState :=
  if c.connection_state = ConnectionState.disconnected then c
  else { c with connection_state := ConnectionState.disconnected
                connection_events := c.connection_events ++ [ConnectionState.disconnected] }

/-- Modelled from the spec: the retry loop of the Connection Manager after
transport loss.  outcome i says whether the i-th reconnect attempt (0-based)
succeeds; the first argument is the remaining attempt budget, the second the
attempts already made.  Exhausting the budget yields the error state;
a successful attempt yields connected.  Returns the final connection state
and the total number of attempts made. -/
def reconnectLoop (outcome : Nat → Bool) : Nat → Nat → ConnectionState × Nat
  | 0, made => (ConnectionState.error, made)
  | Nat.succ budget, made =>
      if outcome made then (ConnectionState.connected, made + 1)
      else reconnectLoop outcome budget (made + 1)

/-- Modelled from the spec: handling of transport loss while connected —
"the manager transitions to reconnecting and retries up to
max_reconnect_attempts times with a fixed delay between attempts;
exhausting attempts transitions to error and stops retrying".  Emits the
reconnecting event, runs the retry loop, then emits the final state; the
attempt count made is returned alongside the resulting client state. -/
def handleTransportLoss (outcome : Nat → Bool) (maxAttempts : Nat) (c : ClientState) :
    ClientState × Nat :=
  let (final, made) := reconnectLoop outcome maxAttempts 0
  ({ c with connection_state := final
            connection_events := c.connection_events ++ [ConnectionState.reconnecting, final] },
   made)

/-- A client in the connected state (with no other history), as reached by a
successful connect(). -/
def connectedClient : ClientState :=
  { ClientState.init with connection_state := ConnectionState.connected }

/-- Folding add_to_queue over a list of segments appends them, in arrival
order, to the queue, and changes nothing else. -/
lemma foldl_add_to_queue (adds : List TTSAudioSegment) (c : ClientState) :
    List.foldl add_to_queue c adds = { c with audio_queue := c.audio_queue ++ adds } := by
  induction adds generalizing c with
  | nil => simp
  | cons s rest ih =>
      simp only [List.foldl_cons, ih, add_to_queue, List.append_assoc, List.singleton_append]

/-- disconnect always lands in the disconnected state. -/
lemma disconnect_connection_state (c : ClientState) :
    (disconnect c).connection_state = ConnectionState.disconnected := by
  unfold disconnect
  split
  · next h => exact h
  · rfl

/-- disconnect is the identity on an already-disconnected client (no state
change, no event emitted). -/
lemma disconnect_of_disconnected (c : ClientState)
    (h : c.connection_state = ConnectionState.disconnected) : disconnect c = c := by
  unfold disconnect
  exact if_pos h

/-- With every attempt failing, the retry loop spends its whole budget and
ends in the error state. -/
lemma reconnectLoop_all_fail (outcome : Nat → Bool) (hfail : ∀ i, outcome i = false) :
    ∀ budget made, reconnectLoop outcome budget made = (ConnectionState.error, made + budget) := by
  intro budget
  induction budget with
  | zero => intro made; simp [reconnectLoop]
  | succ k ih =>
      intro made
      simp only [reconnectLoop, hfail made, Bool.false_eq_true, if_false, ih (made + 1),
        Prod.mk.injEq, true_and]
      omega

/-- C3: for every ConnectionState other than connected, start_recording()
fails with a StateError raised synchronously to the caller and leaves
RecordingState (indeed the whole client state) unchanged — it does not
silently queue the request. -/
theorem C3_start_recording_not_connected (c : ClientState)
    (h : c.connection_state ≠ ConnectionState.connected) :
    (start_recording c).2 = some SdkError.stateError
    ∧ (start_recording c).1.recording_state = c.recording_state
    ∧ (start_recording c).1 = c := by
  unfold start_recording
  rw [if_neg h]
  exact ⟨rfl, rfl, rfl⟩

/-- Witness for C3 at the freshly constructed (disconnected) client. -/
theorem C3_start_recording_not_connected_witness :
    ClientState.init.connection_state ≠ ConnectionState.connected
    ∧ (start_recording ClientState.init).2 = some SdkError.stateError
    ∧ (start_recording ClientState.init).1 = ClientState.init :=
  ⟨by decide,
   (C3_start_recording_not_connected ClientState.init (by decide)).1,
   (C3_start_recording_not_connected ClientState.init (by decide)).2.2⟩

/-- C4: after any sequence of add_to_queue calls, process_audio_queue with
consume_all = false removes and hands to the processor exactly one segment
(zero if empty), namely the earliest-arrived one, preserves the arrival
order of the remaining segments, and returns the count processed. -/
theorem C4_process_one_segment (adds : List TTSAudioSegment) :
    (process_audio_queue (List.foldl add_to_queue ClientState.init adds) false).2
        = min 1 adds.length
    ∧ (process_audio_queue (List.foldl add_to_queue ClientState.init adds) false).1.audio_queue
        = adds.drop 1
    ∧ (process_audio_queue (List.foldl add_to_queue ClientState.init adds) false).1.processed
        = adds.take 1 := by
  rw [foldl_add_to_queue]
  cases adds with
  | nil => exact ⟨rfl, rfl, rfl⟩
  | cons s rest =>
      refine ⟨?_, ?_, ?_⟩ <;>
        simp [process_audio_queue, processQueueList, ClientState.init, Nat.min_eq_left]

/-- C5: clear_queue() discards all pending segments without handing any of
them to a processor (the processed trace is untouched), and the queue length
immediately afterwards is zero. -/
theorem C5_clear_queue (c : ClientState) :
    (clear_queue c).audio_queue.length = 0 ∧ (clear_queue c).processed = c.processed :=
  ⟨rfl, rfl⟩

/-- C6: disconnect() is idempotent — from every prior ConnectionState it
lands in disconnected, a second consecutive call also ends disconnected, and
the second call emits zero connection-state events (at most one). -/
theorem C6_disconnect_idempotent (c : ClientState) :
    (disconnect c).connection_state = ConnectionState.disconnected
    ∧ (disconnect (disconnect c)).connection_state = ConnectionState.disconnected
    ∧ (disconnect (disconnect c)).connection_events = (disconnect c).connection_events := by
  have h1 := disconnect_connection_state c
  have h2 := disconnect_of_disconnected (disconnect c) h1
  exact ⟨h1, by rw [h2]; exact h1, by rw [h2]⟩

/-- C7: on transport loss while connected, the Connection Manager moves to
reconnecting and, when every attempt fails, makes exactly
max_reconnect_attempts reconnect attempts, then settles in error (the
emitted events are reconnecting followed by error, after which the loop has
stopped — no further attempt happens until connect() is re-invoked). -/
theorem C7_reconnect_exhaustion (outcome : Nat → Bool) (maxAttempts : Nat) (c : ClientState)
    (_hconn : c.connection_state = ConnectionState.connected)
    (hfail : ∀ i, outcome i = false) :
    (handleTransportLoss outcome maxAttempts c).1.connection_state = ConnectionState.error
    ∧ (handleTransportLoss outcome maxAttempts c).2 = maxAttempts
    ∧ (handleTransportLoss outcome maxAttempts c).1.connection_events
        = c.connection_events ++ [ConnectionState.reconnecting, ConnectionState.error] := by
  unfold handleTransportLoss
  rw [reconnectLoop_all_fail outcome hfail maxAttempts 0]
  exact ⟨rfl, by simp, rfl⟩

/-- Witness for C7: max_reconnect_attempts = 2 and a transport that always
fails — exactly 2 attempts, final state error. -/
theorem C7_reconnect_exhaustion_witness :
    connectedClient.connection_state = ConnectionState.connected
    ∧ (handleTransportLoss (fun _ => false) 2 connectedClient).1.connection_state
        = ConnectionState.error
    ∧ (handleTransportLoss (fun _ => false) 2 connectedClient).2 = 2 :=
  ⟨rfl,
   (C7_reconnect_exhaustion (fun _ => false) 2 connectedClient rfl (fun _ => rfl)).1,
   (C7_reconnect_exhaustion (fun _ => false) 2 connectedClient rfl (fun _ => rfl)).2.1⟩

/-- __post_init__ never touches auto_connect. -/
lemma postInit_auto_connect (env : Env) (c : VocalsConfig) :
    (VocalsConfig.postInit env c).auto_connect = c.auto_connect := by
  simp only [VocalsConfig.postInit]
  split <;> split <;> split <;> rfl

/-- __post_init__ never touches use_token_auth. -/
lemma postInit_use_token_auth (env : Env) (c : VocalsConfig) :
    (VocalsConfig.postInit env c).use_token_auth = c.use_token_auth := by
  simp only [VocalsConfig.postInit]
  split <;> split <;> split <;> rfl

/-- __post_init__ never touches max_reconnect_attempts. -/
lemma postInit_max_reconnect (env : Env) (c : VocalsConfig) :
    (VocalsConfig.postInit env c).max_reconnect_attempts = c.max_reconnect_attempts := by
  simp only [VocalsConfig.postInit]
  split <;> split <;> split <;> rfl

/-- In the empty environment both construction paths produce the same
configuration object. -/
lemma get_default_config_nil :
    get_default_config [] = Except.ok (VocalsConfig.bare []) := by
  simp +decide [get_default_config, VocalsConfig.bare, VocalsConfig.postInit, VocalsConfig.defaults,
    envGetD, envGet, pyInt, pyFloat, pyFloatCore, takeDigits, stripWS, pySign, expPart, digitVal,
    pyLower, pyOrStr, defaultWsEndpoint]

/-- C1 counterexample: Settings is not immutable after construction.  On the
very object returned by the constructor, the attribute assignment
setAutoConnect succeeds (no FrozenInstanceError — the dataclass is not
frozen) and the field afterwards differs from its constructed value, so a
later operation did write a Settings field. -/
theorem C1_settings_immutability_counterexample :
    VocalsConfig.setAutoConnect (VocalsConfig.bare []) false
      = Except.ok { VocalsConfig.bare [] with auto_connect := false }
    ∧ (VocalsConfig.bare []).auto_connect = true
    ∧ ({ VocalsConfig.bare [] with auto_connect := false }).auto_connect = false :=
  ⟨rfl, rfl, rfl⟩

/-- C1 amended: environment overrides are resolved at construction (the
constructor is the only operation that consults the environment), but the
Settings object is a plain non-frozen dataclass: a later attribute
assignment always succeeds and updates exactly the assigned field —
src/test.py itself relies on this by setting config.debug_level after
get_default_config() returns. -/
theorem C1_settings_mutable_amended (c : VocalsConfig) (v : Bool) :
    VocalsConfig.isFrozen = false
    ∧ VocalsConfig.setAutoConnect c v = Except.ok { c with auto_connect := v } :=
  ⟨rfl, rfl⟩

/-- C2 counterexample: with VOCALS_MAX_RECONNECT_ATTEMPTS set to "-1",
get_default_config() returns a Settings object whose
max_reconnect_attempts is -1, a negative integer. -/
theorem C2_max_reconnect_nonneg_counterexample :
    Except.map VocalsConfig.max_reconnect_attempts
        (get_default_config [("VOCALS_MAX_RECONNECT_ATTEMPTS", "-1")])
      = Except.ok (-1 : Int)
    ∧ (-1 : Int) < 0 :=
  ⟨rfl, by decide⟩

/-- C2 amended: get_default_config() performs no sign check, so
max_reconnect_attempts ≥ 0 holds only when VOCALS_MAX_RECONNECT_ATTEMPTS is
unset (default 3) or parses as a nonnegative integer; a negative value from
the environment is accepted unchecked. -/
theorem C2_max_reconnect_nonneg_amended (env : Env) (cfg : VocalsConfig)
    (hv : envGet env "VOCALS_MAX_RECONNECT_ATTEMPTS" = none ∨
          ∃ s n, envGet env "VOCALS_MAX_RECONNECT_ATTEMPTS" = some s
            ∧ pyInt s = some n ∧ 0 ≤ n)
    (hok : get_default_config env = Except.ok cfg) :
    0 ≤ cfg.max_reconnect_attempts := by
  have hmra : ∃ n, pyInt (envGetD env "VOCALS_MAX_RECONNECT_ATTEMPTS" "3") = some n ∧ 0 ≤ n := by
    rcases hv with h | ⟨s, n, hs, hp, hn⟩
    · refine ⟨3, ?_, by decide⟩
      rw [envGetD, h]
      rfl
    · exact ⟨n, by rw [envGetD, hs]; exact hp, hn⟩
  rcases hmra with ⟨n, hp, hn⟩
  unfold get_default_config at hok
  rw [hp] at hok
  rcases h2 : pyFloat (envGetD env "VOCALS_RECONNECT_DELAY" "1.0") with _ | rd
  · rw [h2] at hok; simp at hok
  · rw [h2] at hok
    rcases h3 : pyFloat (envGetD env "VOCALS_TOKEN_REFRESH_BUFFER" "60.0") with _ | trb
    · rw [h3] at hok; simp at hok
    · rw [h3] at hok
      simp only [Except.ok.injEq] at hok
      rw [← hok, postInit_max_reconnect]
      exact hn

/-- Witness for C2 amended at the empty environment: the variable is unset
and the resolved value 3 is nonnegative. -/
theorem C2_max_reconnect_nonneg_witness :
    envGet ([] : Env) "VOCALS_MAX_RECONNECT_ATTEMPTS" = none
    ∧ get_default_config [] = Except.ok (VocalsConfig.bare [])
    ∧ 0 ≤ (VocalsConfig.bare []).max_reconnect_attempts :=
  ⟨rfl, get_default_config_nil,
   C2_max_reconnect_nonneg_amended [] (VocalsConfig.bare []) (Or.inl rfl) get_default_config_nil⟩

/-- C8 counterexample: with VOCALS_WS_ENDPOINT set to the empty string the
two construction paths disagree on ws_endpoint — the bare constructor's
__post_init__ uses a falsy `or` and falls back to the default URL, while
get_default_config() hands the empty string through unchanged. -/
theorem C8_construction_paths_counterexample :
    (VocalsConfig.bare [("VOCALS_WS_ENDPOINT", "")]).ws_endpoint = some defaultWsEndpoint
    ∧ Except.map VocalsConfig.ws_endpoint (get_default_config [("VOCALS_WS_ENDPOINT", "")])
        = Except.ok (some "")
    ∧ some defaultWsEndpoint ≠ (some "" : Option String) :=
  ⟨rfl, rfl, by decide⟩

/-- C8 amended: the two construction paths agree — indeed produce identical
Settings objects — for every environment in which none of the seven
consulted VOCALS_* variables is set; once any of them is set the paths can
diverge (the bare constructor ignores every variable except
VOCALS_WS_ENDPOINT, and treats the empty string there as unset). -/
theorem C8_construction_paths_agree_amended (env : Env)
    (h1 : envGet env "VOCALS_TOKEN_ENDPOINT" = none)
    (h2 : envGet env "VOCALS_WS_ENDPOINT" = none)
    (h3 : envGet env "VOCALS_AUTO_CONNECT" = none)
    (h4 : envGet env "VOCALS_MAX_RECONNECT_ATTEMPTS" = none)
    (h5 : envGet env "VOCALS_RECONNECT_DELAY" = none)
    (h6 : envGet env "VOCALS_TOKEN_REFRESH_BUFFER" = none)
    (h7 : envGet env "VOCALS_USE_TOKEN_AUTH" = none) :
    get_default_config env = Except.ok (VocalsConfig.bare env) := by
  simp +decide [get_default_config, VocalsConfig.bare, VocalsConfig.postInit, VocalsConfig.defaults,
    envGetD, h1, h2, h3, h4, h5, h6, h7, pyInt, pyFloat, pyFloatCore, takeDigits, stripWS, pySign,
    expPart, digitVal, pyLower, pyOrStr, defaultWsEndpoint]

/-- Witness for C8 amended at the empty environment. -/
theorem C8_construction_paths_agree_witness :
    envGet ([] : Env) "VOCALS_TOKEN_ENDPOINT" = none
    ∧ envGet ([] : Env) "VOCALS_WS_ENDPOINT" = none
    ∧ envGet ([] : Env) "VOCALS_AUTO_CONNECT" = none
    ∧ envGet ([] : Env) "VOCALS_MAX_RECONNECT_ATTEMPTS" = none
    ∧ envGet ([] : Env) "VOCALS_RECONNECT_DELAY" = none
    ∧ envGet ([] : Env) "VOCALS_TOKEN_REFRESH_BUFFER" = none
    ∧ envGet ([] : Env) "VOCALS_USE_TOKEN_AUTH" = none
    ∧ get_default_config [] = Except.ok (VocalsConfig.bare []) :=
  ⟨rfl, rfl, rfl, rfl, rfl, rfl, rfl,
   C8_construction_paths_agree_amended [] rfl rfl rfl rfl rfl rfl rfl⟩

/-- C9: get_default_config() returns successfully exactly when the three
numeric environment variables (with their defaults) parse — the int one as
a Python int, the two float ones as Python floats; and whenever it does not
return successfully, the raised error is a ValueError. -/
theorem C9_numeric_env_parse (env : Env) :
    (exceptOk (get_default_config env) = true ↔
      (pyInt (envGetD env "VOCALS_MAX_RECONNECT_ATTEMPTS" "3")).isSome = true
      ∧ (pyFloat (envGetD env "VOCALS_RECONNECT_DELAY" "1.0")).isSome = true
      ∧ (pyFloat (envGetD env "VOCALS_TOKEN_REFRESH_BUFFER" "60.0")).isSome = true)
    ∧ (exceptOk (get_default_config env) = false →
        get_default_config env = Except.error PyError.valueError) := by
  unfold get_default_config
  rcases h1 : pyInt (envGetD env "VOCALS_MAX_RECONNECT_ATTEMPTS" "3") with _ | n <;>
    rcases h2 : pyFloat (envGetD env "VOCALS_RECONNECT_DELAY" "1.0") with _ | rd <;>
      rcases h3 : pyFloat (envGetD env "VOCALS_TOKEN_REFRESH_BUFFER" "60.0") with _ | trb <;>
        simp [exceptOk]

/-- Witness for C9 at an environment whose VOCALS_RECONNECT_DELAY does not
parse as a float: the call raises ValueError. -/
theorem C9_numeric_env_parse_witness :
    exceptOk (get_default_config [("VOCALS_RECONNECT_DELAY", "abc")]) = false
    ∧ get_default_config [("VOCALS_RECONNECT_DELAY", "abc")]
        = Except.error PyError.valueError :=
  ⟨rfl, (C9_numeric_env_parse [("VOCALS_RECONNECT_DELAY", "abc")]).2 rfl⟩

/-- C10: boolean environment parsing is lowercased and defaults to true —
the returned Settings has auto_connect true iff VOCALS_AUTO_CONNECT is
unset or its lowercased value equals "true", and likewise use_token_auth
with VOCALS_USE_TOKEN_AUTH; every other value yields false. -/
theorem C10_bool_env_parse (env : Env) (cfg : VocalsConfig)
    (hok : get_default_config env = Except.ok cfg) :
    (cfg.auto_connect = true ↔
      ∀ v, envGet env "VOCALS_AUTO_CONNECT" = some v → pyLower v = "true")
    ∧ (cfg.use_token_auth = true ↔
      ∀ v, envGet env "VOCALS_USE_TOKEN_AUTH" = some v → pyLower v = "true") := by
  unfold get_default_config at hok
  rcases h1 : pyInt (envGetD env "VOCALS_MAX_RECONNECT_ATTEMPTS" "3") with _ | n
  · rw [h1] at hok; simp at hok
  · rw [h1] at hok
    rcases h2 : pyFloat (envGetD env "VOCALS_RECONNECT_DELAY" "1.0") with _ | rd
    · rw [h2] at hok; simp at hok
    · rw [h2] at hok
      rcases h3 : pyFloat (envGetD env "VOCALS_TOKEN_REFRESH_BUFFER" "60.0") with _ | trb
      · rw [h3] at hok; simp at hok
      · rw [h3] at hok
        simp only [Except.ok.injEq] at hok
        subst hok
        constructor
        · rw [postInit_auto_connect]
          rcases hv : envGet env "VOCALS_AUTO_CONNECT" with _ | v
          · simp only [envGetD, hv, Option.getD_none]
            simp
            decide
          · simp [envGetD, hv, beq_iff_eq]
        · rw [postInit_use_token_auth]
          rcases hv : envGet env "VOCALS_USE_TOKEN_AUTH" with _ | v
          · simp only [envGetD, hv, Option.getD_none]
            simp
            decide
          · simp [envGetD, hv, beq_iff_eq]

/-- Witness for C10 at the empty environment: both variables unset, both
flags true. -/
theorem C10_bool_env_parse_witness :
    get_default_config [] = Except.ok (VocalsConfig.bare [])
    ∧ ((VocalsConfig.bare []).auto_connect = true ↔
        ∀ v, envGet ([] : Env) "VOCALS_AUTO_CONNECT" = some v → pyLower v = "true")
    ∧ ((VocalsConfig.bare []).use_token_auth = true ↔
        ∀ v, envGet ([] : Env) "VOCALS_USE_TOKEN_AUTH" = some v → pyLower v = "true") :=
  ⟨get_default_config_nil,
   (C10_bool_env_parse [] (VocalsConfig.bare []) get_default_config_nil).1,
   (C10_bool_env_parse [] (VocalsConfig.bare []) get_default_config_nil).2⟩

end VocalsSDK
